import Mathlib

/-!
Verification of the PacketClaude AX.25 packet-radio gateway.

Shallow embedding of the Python source (src/packetclaude/...): pure parts
of the code become Lean functions over lists of bytes (`Nat`) and strings;
stateful handlers become functions from explicit state records to updated
states together with a trace of externally visible actions.  Each section
names the source file and function it embeds.
-/

namespace PacketClaude

/-! ### Python string primitives

Character-list implementations of the Python `str` methods the source uses
(`upper`, `lower`, `strip`, `replace`, `split`, `int`), chosen over the
`String` library functions so that every definition reduces inside the
kernel.  The callsigns, filenames and protocol headers handled by the code
are ASCII, where `Char.toUpper`/`Char.toLower` agree with Python. -/

/-- Python `str.upper` on a character list. -/
def pyUpperChars (l : List Char) : List Char := l.map Char.toUpper

/-- Python `str.upper`. -/
def pyUpper (s : String) : String := String.mk (pyUpperChars s.toList)

/-- Python `str.lower`. -/
def pyLower (s : String) : String := String.mk (s.toList.map Char.toLower)

/-- Python `str.strip` with no argument: whitespace removed from both ends. -/
def pyStripChars (l : List Char) : List Char :=
  ((l.dropWhile Char.isWhitespace).reverse.dropWhile Char.isWhitespace).reverse

/-- Python `str.strip`. -/
def pyStrip (s : String) : String := String.mk (pyStripChars s.toList)

/-- Python `str.startswith`. -/
def startsWithChars (l pre : List Char) : Bool := l.take pre.length == pre

/-- Left-to-right non-overlapping replacement, the semantics of Python
`str.replace` for a nonempty pattern; the list length is enough fuel because
every step consumes at least one character. -/
def pyReplaceAux (old new : List Char) : Nat → List Char → List Char
  | 0, l => l
  | _, [] => []
  | fuel + 1, l@(c :: rest) =>
      if old ≠ [] ∧ l.take old.length = old then
        new ++ pyReplaceAux old new fuel (l.drop old.length)
      else c :: pyReplaceAux old new fuel rest

/-- Python `str.replace old new` (for the nonempty patterns the source uses). -/
def pyReplace (s old new : String) : String :=
  String.mk (pyReplaceAux old.toList new.toList s.toList.length s.toList)

/-- Python `str.split` with no argument: split on whitespace runs, dropping
empty fields; `acc` holds the current word reversed. -/
def splitWsAux : List Char → List Char → List (List Char)
  | [], acc => if acc = [] then [] else [acc.reverse]
  | c :: rest, acc =>
      if c.isWhitespace then
        if acc = [] then splitWsAux rest []
        else acc.reverse :: splitWsAux rest []
      else splitWsAux rest (c :: acc)

/-- Python `str.split` with no argument. -/
def splitWs (l : List Char) : List (List Char) := splitWsAux l []

/-- Python `int(str)` restricted to the unsigned decimal numerals the YAPP
headers carry; any other string raises in Python and yields `none` here. -/
def parseNatChars (l : List Char) : Option Nat :=
  if l ≠ [] ∧ l.all Char.isDigit then
    some (l.foldl (fun n c => n * 10 + (c.toNat - 48)) 0)
  else none

/-! ### KISS framing — src/packetclaude/ax25/kiss.py

Constants from class `KISSFrame` and `KISSCommand`. -/

def FEND : Nat := 0xC0
def FESC : Nat := 0xDB
def TFEND : Nat := 0xDC
def TFESC : Nat := 0xDD
def DATA_FRAME : Nat := 0x00

/-- Escape loop of `KISSClient._build_kiss_frame` (kiss.py lines 164-172):
`FEND` becomes `FESC TFEND`, `FESC` becomes `FESC TFESC`, all else verbatim. -/
def kissEscape : List Nat → List Nat
  | [] => []
  | b :: rest =>
      (if b = FEND then [FESC, TFEND]
       else if b = FESC then [FESC, TFESC]
       else [b]) ++ kissEscape rest

/-- Embedding of `KISSClient._build_kiss_frame` (kiss.py lines 150-179):
`FEND`, command byte `(port << 4) | DATA_FRAME`, escaped payload, `FEND`. -/
def buildKissFrame (data : List Nat) (port : Nat) : List Nat :=
  (FEND :: ((port <<< 4) ||| DATA_FRAME) :: kissEscape data) ++ [FEND]

/-- Data loop of `KISSClient._read_kiss_frame` (kiss.py lines 206-235), reading
bytes from the stream into `acc` with the `escaped` flag.  An exhausted stream
(`recv` returning empty) yields `none`; a terminating `FEND` yields the
accumulated bytes, except that an empty accumulation yields `none`
(`return bytes(frame_data) if frame_data else None`). -/
def readKissData : List Nat → List Nat → Bool → Option (List Nat)
  | [], _, _ => none
  | b :: rest, acc, escaped =>
      if b = FEND then (if acc = [] then none else some acc)
      else if b = FESC then readKissData rest acc true
      else if escaped then
        readKissData rest
          (acc ++ [if b = TFEND then FEND else if b = TFESC then FESC else b]) false
      else readKissData rest (acc ++ [b]) false

/-- Embedding of `KISSClient._read_kiss_frame` (kiss.py lines 181-235): skip
until a `FEND`, read (and discard) the command byte — the port extraction is
commented out in the source — then decode data until the closing `FEND`. -/
def readKissFrame (stream : List Nat) : Option (List Nat) :=
  match stream.dropWhile (fun b => b ≠ FEND) with
  | [] => none
  | _fend :: rest =>
      match rest with
      | [] => none
      | _cmd :: rest2 => readKissData rest2 [] false

/-! ### Conversation sessions — src/packetclaude/claude/session.py

`ConversationSession.messages` is a `deque(maxlen=max_messages)`. -/

/-- Message record appended by `ConversationSession.add_message`
(session.py lines 35-49): a role and a content string. -/
structure ChatMsg where
  role : String
  content : String
  deriving DecidableEq, Repr

/-- Embedding of `ConversationSession.add_message` (session.py lines 35-49):
`self.messages.append({...})` on a `deque(maxlen=max_messages)`.  A Python
bounded deque discards elements from the left so that the length never
exceeds `maxMessages`; appending to a full deque drops exactly the oldest
element (and a `maxlen=0` deque stays empty). -/
def addMessage (maxMessages : Nat) (msgs : List ChatMsg) (m : ChatMsg) : List ChatMsg :=
  let appended := msgs ++ [m]
  appended.drop (appended.length - maxMessages)

/-- Replay of a sequence of `add_message` calls against the empty history that
`ConversationSession.__init__` (session.py line 28) starts from. -/
def runAdds (maxMessages : Nat) (adds : List ChatMsg) : List ChatMsg :=
  adds.foldl (addMessage maxMessages) []

/-! ### AX.25 frames — src/packetclaude/ax25/protocol.py -/

/-- Address record of class `AX25Address`: the constructor (protocol.py lines
39-54) stores the callsign upper-cased, cut to six characters and space-padded
to six, the SSID masked to four bits and the reserved bits masked to two. -/
structure AX25Address where
  callsign : String
  ssid : Nat
  commandResponse : Bool
  reservedBits : Nat
  deriving DecidableEq, Repr

/-- Padding `callsign.upper()[:6].ljust(6)` from `AX25Address.__init__`. -/
def padCallsign (s : String) : String :=
  let t := (pyUpperChars s.toList).take 6
  String.mk (t ++ List.replicate (6 - t.length) ' ')

/-- Embedding of `AX25Address.__init__` (protocol.py lines 39-54). -/
def mkAddress (callsign : String) (ssid : Nat) (commandResponse : Bool)
    (reservedBits : Nat) : AX25Address :=
  { callsign := padCallsign callsign
    ssid := ssid &&& 0x0F
    commandResponse := commandResponse
    reservedBits := reservedBits &&& 0x03 }

/-- Embedding of `AX25Address.encode` (protocol.py lines 56-78): each callsign
character shifted left one bit, then the SSID byte packing C/R, reserved bits,
SSID and the last-address flag. -/
def encodeAddress (a : AX25Address) (last : Bool) : List Nat :=
  a.callsign.toList.map (fun c => c.toNat <<< 1) ++
    [((if a.commandResponse then 1 else 0) <<< 7) ||| (a.reservedBits <<< 5) |||
      (a.ssid <<< 1) ||| (if last then 1 else 0)]

/-- Embedding of `AX25Address.decode` (protocol.py lines 80-103) on a 7-byte
slice: callsign characters shifted right one bit and stripped, SSID byte
unpacked, and the result rebuilt through the normalizing constructor.  The
`len(data) < 7` ValueError of the source is unreachable from `AX25Frame.decode`
(every call site guards the slice length first), so the embedding takes the
seven bytes positionally with `getD`. -/
def decodeAddress (data : List Nat) : AX25Address :=
  let callsign := pyStrip (String.mk ((data.take 6).map (fun b => Char.ofNat (b >>> 1))))
  let ssidByte := data.getD 6 0
  mkAddress callsign ((ssidByte >>> 1) &&& 0x0F) (ssidByte &&& 0x80 != 0)
    ((ssidByte >>> 5) &&& 0x03)

/-- Frame record of class `AX25Frame` (protocol.py lines 115-141). -/
structure AX25Frame where
  destination : AX25Address
  source : AX25Address
  digipeaters : List AX25Address
  control : Nat
  pid : Nat
  info : List Nat
  deriving DecidableEq, Repr

/-- Embedding of `AX25Frame._is_info_frame` (protocol.py lines 230-232). -/
def isInfoFrame (f : AX25Frame) : Bool :=
  (f.control &&& 0x01 == 0) || (f.control == 0x03)

/-- Digipeater loop of `AX25Frame.encode` (protocol.py lines 160-162): each
digipeater encoded, only the final one with the last-address flag. -/
def encodeDigis : List AX25Address → List Nat
  | [] => []
  | [d] => encodeAddress d true
  | d :: rest => encodeAddress d false ++ encodeDigis rest

/-- Embedding of `AX25Frame.encode` (protocol.py lines 143-175): destination,
source (last iff no digipeaters), digipeaters, control byte, PID only for an
info frame (I or UI), then the info field. -/
def frameEncode (f : AX25Frame) : List Nat :=
  encodeAddress f.destination false ++
    encodeAddress f.source f.digipeaters.isEmpty ++
    encodeDigis f.digipeaters ++
    [f.control] ++
    (if isInfoFrame f then [f.pid] else []) ++
    f.info

/-- Digipeater loop of `AX25Frame.decode` (protocol.py lines 201-208):
`while offset < len(data) and not (data[offset-1] & 0x01)`, breaking when
fewer than seven bytes remain; `prevByte` is the byte before the current
offset (the SSID byte of the previous address). -/
def parseDigis (prevByte : Nat) (rest : List Nat) :
    List AX25Address × List Nat :=
  if rest = [] ∨ prevByte &&& 0x01 ≠ 0 then ([], rest)
  else if _h : rest.length < 7 then ([], rest)
  else
    let addr := decodeAddress (rest.take 7)
    let (ds, r) := parseDigis (rest.getD 6 0) (rest.drop 7)
    (addr :: ds, r)
termination_by rest.length
decreasing_by simp [List.length_drop]; omega

/-- Embedding of `AX25Frame.decode` (protocol.py lines 177-228): a frame of
fewer than 16 bytes fails with "Frame too short" (the source's comment reads
"Minimum: dest(7) + source(7) + control(1) + pid(1)"); then destination,
source, digipeaters, control byte, and PID plus info only for an I or UI
control byte and only as far as bytes remain. -/
def frameDecode (data : List Nat) : Except String AX25Frame :=
  if data.length < 16 then .error "Frame too short"
  else
    let destination := decodeAddress (data.take 7)
    let source := decodeAddress ((data.drop 7).take 7)
    let (digipeaters, rest) := parseDigis (data.getD 13 0) (data.drop 14)
    match rest with
    | [] => .error "No control field"
    | control :: rest2 =>
        let (pid, info) :=
          if control &&& 0x01 = 0 ∨ control = 0x03 then
            match rest2 with
            | [] => ((0xF0 : Nat), ([] : List Nat))
            | p :: rest3 => (p, rest3)
          else (0xF0, [])
        .ok { destination, source, digipeaters, control, pid, info }

/-- Embedding of `AX25Frame.create_ui_frame` (protocol.py lines 263-287). -/
def createUiFrame (destination source : String) (info : List Nat)
    (destSsid sourceSsid : Nat) : AX25Frame :=
  { destination := mkAddress destination destSsid false 0x03
    source := mkAddress source sourceSsid false 0x03
    digipeaters := []
    control := 0x03
    pid := 0xF0
    info := info }

/-- Embedding of `AX25Frame.create_sabm_frame` (protocol.py lines 289-311):
control byte 0x3F (SABM with the P bit set), empty info. -/
def createSabmFrame (destination source : String)
    (destSsid sourceSsid : Nat) : AX25Frame :=
  { destination := mkAddress destination destSsid false 0x03
    source := mkAddress source sourceSsid false 0x03
    digipeaters := []
    control := 0x3F
    pid := 0xF0
    info := [] }

/-- Embedding of `AX25Frame.create_ua_frame` (protocol.py lines 313-335):
control byte 0x73 (UA with the F bit set), empty info. -/
def createUaFrame (destination source : String)
    (destSsid sourceSsid : Nat) : AX25Frame :=
  { createSabmFrame destination source destSsid sourceSsid with control := 0x73 }

/-- Embedding of `AX25Frame.create_disc_frame` (protocol.py lines 337-359):
control byte 0x53 (DISC with the P bit set), empty info. -/
def createDiscFrame (destination source : String)
    (destSsid sourceSsid : Nat) : AX25Frame :=
  { createSabmFrame destination source destSsid sourceSsid with control := 0x53 }

/-- Embedding of `AX25Frame.create_dm_frame` (protocol.py lines 361-383):
control byte 0x1F (DM with the F bit set), empty info. -/
def createDmFrame (destination source : String)
    (destSsid sourceSsid : Nat) : AX25Frame :=
  { createSabmFrame destination source destSsid sourceSsid with control := 0x1F }

/-! ### YAPP file transfer — src/packetclaude/ax25/yapp.py -/

/-- Control bytes of class `YAPPControl` (yapp.py lines 19-28). -/
def yENQ : Nat := 0x05
def yACK : Nat := 0x06
def yNAK : Nat := 0x15
def ySOH : Nat := 0x01
def ySTX : Nat := 0x02
def yETX : Nat := 0x03
def yEOT : Nat := 0x04
def yCAN : Nat := 0x18

/-- States of enum `YAPPState` (yapp.py lines 31-40). -/
inductive YAPPState where
  | idle
  | waitAck
  | receivingHeader
  | sendingHeader
  | receivingData
  | sendingData
  | complete
  | error
  deriving DecidableEq, Repr

/-- Header record of dataclass `YAPPHeader` (yapp.py lines 43-48).  File sizes
and timestamps are the unsigned decimals that `YAPPHeader.encode` writes. -/
structure YAPPHeader where
  filename : String
  fileSize : Nat
  timestamp : Nat
  deriving DecidableEq, Repr

/-- Header string `f"{filename} {size} {timestamp}\r"` from
`YAPPHeader.encode` (yapp.py line 57). -/
def headerStrOf (filename : String) (fileSize timestamp : Nat) : String :=
  filename ++ " " ++ toString fileSize ++ " " ++ toString timestamp ++ "\r"

/-- Embedding of `YAPPHeader.encode` (yapp.py lines 50-69): the header string,
with the filename truncated when the string exceeds 128 characters, encoded as
ASCII (errors=replace turns a non-ASCII character into 0x3F), NUL-padded and
cut to 128 bytes. -/
def headerEncode (h : YAPPHeader) : List Nat :=
  let s := headerStrOf h.filename h.fileSize h.timestamp
  let s :=
    if s.toList.length > 128 then
      headerStrOf
        (String.mk (h.filename.toList.take
          (128 - (toString h.fileSize).toList.length -
            (toString h.timestamp).toList.length - 4)))
        h.fileSize h.timestamp
    else s
  let bytes := s.toList.map (fun c => if c.toNat ≤ 0x7F then c.toNat else 0x3F)
  (bytes ++ List.replicate (128 - bytes.length) 0).take 128

/-- Embedding of `YAPPHeader.decode` (yapp.py lines 71-98): strip trailing
NULs, decode as ASCII dropping non-ASCII bytes (errors=ignore), strip
whitespace, split on whitespace; fewer than two fields — or a size or
timestamp field that is not a numeral (`int` raises) — yields `none`. -/
def headerDecode (data : List Nat) : Option YAPPHeader :=
  let trimmed := (data.reverse.dropWhile (fun b => b = 0)).reverse
  let chars := trimmed.filterMap
    (fun b => if b ≤ 0x7F then some (Char.ofNat b) else none)
  match splitWs (pyStripChars chars) with
  | p0 :: p1 :: rest =>
      match parseNatChars p1 with
      | none => none
      | some size =>
          match rest with
          | [] => some ⟨String.mk p0, size, 0⟩
          | p2 :: _ =>
              match parseNatChars p2 with
              | none => none
              | some ts => some ⟨String.mk p0, size, ts⟩
  | _ => none

/-- Transfer record of class `YAPPTransfer` (yapp.py lines 110-135), without
the wall-clock `last_activity` timestamp and the callbacks, which carry no
protocol state. -/
structure YAPPTransfer where
  isUpload : Bool
  callsign : String
  state : YAPPState
  header : Option YAPPHeader
  fileData : List Nat
  currentBlock : Nat
  expectedBlocks : Nat
  retryCount : Nat
  deriving DecidableEq, Repr

def BLOCK_SIZE : Nat := 128
def MAX_RETRIES : Nat := 3

/-- Embedding of `YAPPTransfer.__init__` followed by `start_upload`
(yapp.py lines 137-148): a fresh receiving transfer in state WAIT_ACK,
answering with an ACK byte. -/
def startUploadTransfer (callsign : String) : YAPPTransfer × List Nat :=
  ({ isUpload := true
     callsign := callsign
     state := .waitAck
     header := none
     fileData := []
     currentBlock := 0
     expectedBlocks := 0
     retryCount := 0 },
   [yACK])

/-- Embedding of `YAPPTransfer.start_download` (yapp.py lines 150-177):
header built from the file, `expected_blocks = ceil(len)/128`, state WAIT_ACK,
and an ENQ packet returned. -/
def startDownloadTransfer (callsign filename : String) (fileData : List Nat)
    (timestamp : Nat) : YAPPTransfer × List Nat :=
  ({ isUpload := false
     callsign := callsign
     state := .waitAck
     header := some ⟨filename, fileData.length, timestamp⟩
     fileData := fileData
     currentBlock := 0
     expectedBlocks := (fileData.length + BLOCK_SIZE - 1) / BLOCK_SIZE
     retryCount := 0 },
   [yENQ])

/-- Embedding of `YAPPTransfer._send_header` (yapp.py lines 294-302). -/
def sendHeader (t : YAPPTransfer) : List Nat :=
  match t.header with
  | none => [yCAN]
  | some h => ySOH :: headerEncode h

/-- Embedding of `YAPPTransfer._send_next_block` (yapp.py lines 304-320):
the current 128-byte block, NUL-padded at the end of the file. -/
def sendNextBlock (t : YAPPTransfer) : List Nat :=
  if t.currentBlock ≥ t.expectedBlocks then [yETX]
  else
    let blockData := (t.fileData.drop (t.currentBlock * BLOCK_SIZE)).take BLOCK_SIZE
    let blockData := blockData ++ List.replicate (BLOCK_SIZE - blockData.length) 0
    ySTX :: blockData

/-- Embedding of `YAPPTransfer._handle_nak` (yapp.py lines 322-341): bump the
retry counter, cancel after `MAX_RETRIES`, otherwise retransmit the unit the
current state is sending. -/
def handleNak (t : YAPPTransfer) : YAPPTransfer × Option (List Nat) :=
  let t := { t with retryCount := t.retryCount + 1 }
  if t.retryCount ≥ MAX_RETRIES then
    ({ t with state := .error }, some [yCAN])
  else if t.state = .sendingHeader then (t, some (sendHeader t))
  else if t.state = .sendingData then (t, some (sendNextBlock t))
  else (t, none)

/-- Embedding of `YAPPTransfer._handle_cancel` (yapp.py lines 343-349). -/
def handleCancel (t : YAPPTransfer) : YAPPTransfer × Option (List Nat) :=
  ({ t with state := .error }, none)

/-- Embedding of `YAPPTransfer.handle_packet` (yapp.py lines 179-292): the
state dispatch on the first byte of the packet.  In the RECEIVING_DATA and ETX
branches the source dereferences `self.header.file_size`; `header` is always
set on entry to that state, so the impossible `none` case is mapped to the
fall-through `return None`. -/
def handlePacket (t : YAPPTransfer) (data : List Nat) :
    YAPPTransfer × Option (List Nat) :=
  match data with
  | [] => (t, none)
  | controlByte :: _ =>
    match t.state with
    | .waitAck =>
        if controlByte = yACK then
          if t.isUpload then ({ t with state := .receivingHeader }, none)
          else
            let t := { t with state := .sendingHeader }
            (t, some (sendHeader t))
        else if controlByte = yNAK then handleNak t
        else if controlByte = yCAN then handleCancel t
        else (t, none)
    | .receivingHeader =>
        if controlByte = ySOH then
          if data.length ≥ 129 then
            let headerData := (data.drop 1).take 128
            match headerDecode headerData with
            | some h =>
                ({ t with
                    header := some h
                    expectedBlocks := (h.fileSize + BLOCK_SIZE - 1) / BLOCK_SIZE
                    state := .receivingData }, some [yACK])
            | none => (t, some [yNAK])
          else (t, none)
        else (t, none)
    | .receivingData =>
        if controlByte = ySTX then
          if data.length ≥ 2 then
            match t.header with
            | none => (t, none)
            | some h =>
                let fileData := t.fileData ++ data.drop 1
                let t := { t with currentBlock := t.currentBlock + 1 }
                if fileData.length ≥ h.fileSize then
                  ({ t with
                      fileData := fileData.take h.fileSize
                      state := .complete }, some [yACK])
                else ({ t with fileData := fileData }, some [yACK])
          else (t, none)
        else if controlByte = yETX then
          match t.header with
          | none => (t, none)
          | some h =>
              if t.fileData.length ≥ h.fileSize then
                ({ t with state := .complete }, some [yACK])
              else (t, some [yNAK])
        else (t, none)
    | .sendingHeader =>
        if controlByte = yACK then
          let t := { t with state := .sendingData }
          (t, some (sendNextBlock t))
        else if controlByte = yNAK then handleNak t
        else (t, none)
    | .sendingData =>
        if controlByte = yACK then
          let t := { t with currentBlock := t.currentBlock + 1 }
          if t.currentBlock ≥ t.expectedBlocks then
            ({ t with state := .complete }, some [yETX])
          else (t, some (sendNextBlock t))
        else if controlByte = yNAK then handleNak t
        else (t, none)
    | _ => (t, none)

/-- Manager record of class `YAPPManager` (yapp.py lines 379-386): the
per-callsign transfer table. -/
structure YAPPManager where
  transfers : List (String × YAPPTransfer)
  deriving DecidableEq, Repr

/-- Embedding of `YAPPManager.start_upload` (yapp.py lines 388-404). -/
def managerStartUpload (m : YAPPManager) (callsign : String) :
    YAPPManager × Option (List Nat) :=
  if (m.transfers.lookup callsign).isSome then (m, none)
  else
    let (t, response) := startUploadTransfer callsign
    ({ transfers := (callsign, t) :: m.transfers }, some response)

/-- Embedding of `YAPPManager.handle_packet` (yapp.py lines 426-451): with no
active transfer, an ENQ starts an upload; otherwise the packet is dispatched
to the transfer, and a completed or errored transfer is dropped from the
table. -/
def managerHandlePacket (m : YAPPManager) (callsign : String)
    (data : List Nat) : YAPPManager × Option (List Nat) :=
  match m.transfers.lookup callsign with
  | none =>
      if data ≠ [] ∧ data.headD 0 = yENQ then managerStartUpload m callsign
      else (m, none)
  | some t =>
      let (t2, response) := handlePacket t data
      if t2.state = .complete ∨ t2.state = .error then
        ({ transfers := m.transfers.filter (fun p => p.1 ≠ callsign) }, response)
      else
        ({ transfers := m.transfers.map
            (fun p => if p.1 = callsign then (callsign, t2) else p) }, response)

/-- Run of `YAPPManager.handle_packet` over a sequence of inbound packets,
collecting the response to each. -/
def managerRun (m : YAPPManager) (callsign : String) (packets : List (List Nat)) :
    YAPPManager × List (Option (List Nat)) :=
  packets.foldl
    (fun (acc : YAPPManager × List (Option (List Nat))) pkt =>
      let (m2, r) := managerHandlePacket acc.1 callsign pkt
      (m2, acc.2 ++ [r]))
    (m, [])

/-! ### Reply fragmentation — src/packetclaude/main.py `_send_to_station`

Lines 751-770: on an AX.25 connection the reply string is newline-translated
and then sliced `message[i:i + chunk_size]` for `i in range(0, len, 200)` —
a slice of Python characters — and each chunk is sent as
`chunk.encode('utf-8')`. -/

/-- Newline translation `message.replace('\r\n', '\n').replace('\n', '\r')`
(main.py line 761). -/
def translateNewlines (message : String) : String :=
  pyReplace (pyReplace message "\r\n" "\n") "\n" "\r"

/-- Python slicing loop `for i in range(0, len(message), n)` collecting
`message[i:i+n]`; the list length is enough fuel because every step consumes
`n ≥ 1` characters. -/
def chunksOfAux (n : Nat) : Nat → List Char → List (List Char)
  | 0, _ => []
  | _, [] => []
  | fuel + 1, l => l.take n :: chunksOfAux n fuel (l.drop n)

/-- Character chunks of size `n` (the source's `chunk_size = 200`). -/
def pyChunks (n : Nat) (l : List Char) : List (List Char) :=
  chunksOfAux n l.length l

def chunk_size : Nat := 200

/-- AX.25 branch of `_send_to_station` (main.py lines 758-768): the character
chunks whose UTF-8 encodings become the info fields of the emitted UI
frames. -/
def sendToStationAx25 (message : String) : List (List Char) :=
  pyChunks chunk_size (translateNewlines message).toList

/-- Byte length of the UTF-8 encoding of a character chunk:
`List.sum` of the characters' UTF-8 sizes equals
`(chunk.encode('utf-8')).length`. -/
def utf8Len (l : List Char) : Nat := (l.map Char.utf8Size).sum

/-! ### Files and shares — src/packetclaude/database.py

Rows of the `files` and `file_shares` tables (schema in `_init_schema`,
lines 119-146).  The blob, MIME, checksum and description columns carry no
access-control or quota state and are left out.  Note the `file_shares`
table declares `id INTEGER PRIMARY KEY AUTOINCREMENT` and NOT NULL columns
but no UNIQUE constraint on `(file_id, shared_with_callsign)`. -/

structure FileRow where
  id : Nat
  filename : String
  fileSize : Nat
  ownerCallsign : String
  accessLevel : String
  deriving DecidableEq, Repr

structure ShareRow where
  id : Nat
  fileId : Nat
  sharedWithCallsign : String
  sharedByCallsign : String
  deriving DecidableEq, Repr

structure FilesDb where
  files : List FileRow
  shares : List ShareRow
  nextFileId : Nat
  nextShareId : Nat
  deriving DecidableEq, Repr

/-- SELECT by primary key (`WHERE id = ?` with `fetchone`). -/
def findFile (db : FilesDb) (fileId : Nat) : Option FileRow :=
  db.files.find? (fun r => r.id == fileId)

/-- Embedding of `Database.check_file_access` (database.py lines 958-999):
a missing row denies; the owner, a public access level, or a
`file_shares` row for the (upper-cased) callsign under a shared access level
allow; anything else denies. -/
def checkFileAccess (db : FilesDb) (fileId : Nat) (callsign : String) : Bool :=
  match findFile db fileId with
  | none => false
  | some row =>
      let callsignUpper := pyUpper callsign
      if row.ownerCallsign = callsignUpper then true
      else if row.accessLevel = "public" then true
      else if row.accessLevel = "shared" then
        db.shares.any
          (fun s => s.fileId == fileId && s.sharedWithCallsign == callsignUpper)
      else false

/-- Embedding of `Database.share_file` (database.py lines 916-956): verify
ownership, promote the access level to shared, then
`INSERT OR IGNORE INTO file_shares ...`.  OR IGNORE skips a row only on a
constraint conflict, and the schema puts no UNIQUE constraint on
`(file_id, shared_with_callsign)` — the autoincrement primary key never
conflicts — so the insert appends a row unconditionally. -/
def shareFile (db : FilesDb) (fileId : Nat)
    (ownerCallsign sharedWithCallsign : String) : Bool × FilesDb :=
  match db.files.find?
      (fun r => r.id == fileId && r.ownerCallsign == pyUpper ownerCallsign) with
  | none => (false, db)
  | some fileRow =>
      let promoted := db.files.map
        (fun r => if r.id == fileId then { r with accessLevel := "shared" } else r)
      let db := if fileRow.accessLevel ≠ "shared" then { db with files := promoted } else db
      let newShare : ShareRow :=
        ⟨db.nextShareId, fileId, pyUpper sharedWithCallsign, pyUpper ownerCallsign⟩
      (true, { db with shares := db.shares ++ [newShare], nextShareId := db.nextShareId + 1 })

/-- Embedding of `Database.save_file` (database.py lines 761-788): insert a
row with the owner upper-cased and return the new row id. -/
def saveFile (db : FilesDb) (filename : String) (fileSize : Nat)
    (ownerCallsign accessLevel : String) : Nat × FilesDb :=
  let newFile : FileRow :=
    ⟨db.nextFileId, filename, fileSize, pyUpper ownerCallsign, accessLevel⟩
  (db.nextFileId, { db with files := db.files ++ [newFile], nextFileId := db.nextFileId + 1 })

/-- Embedding of `Database.get_file_count` (database.py lines 1015-1031). -/
def getFileCount (db : FilesDb) (callsign : String) : Nat :=
  (db.files.filter (fun r => r.ownerCallsign == pyUpper callsign)).length

/-- Embedding of `Database.get_total_file_size` (database.py lines
1033-1049): `SUM(file_size)` with NULL (no rows) read as 0. -/
def getTotalFileSize (db : FilesDb) (callsign : String) : Nat :=
  ((db.files.filter (fun r => r.ownerCallsign == pyUpper callsign)).map
    (fun r => r.fileSize)).sum

/-! ### File manager — src/packetclaude/files/manager.py -/

def MAX_FILES_PER_USER : Nat := 50
def MAX_TOTAL_SIZE_PER_USER : Nat := 5 * 1024 * 1024

/-- Character class of `FILENAME_PATTERN = r'^[a-zA-Z0-9._-]+$'`. -/
def isFilenameChar (c : Char) : Bool :=
  c.isAlpha || c.isDigit || c == '.' || c == '_' || c == '-'

/-- Substring test for `'..' in filename`. -/
def hasDoubleDot : List Char → Bool
  | [] => false
  | [_] => false
  | a :: b :: rest => (a == '.' && b == '.') || hasDoubleDot (b :: rest)

/-- Embedding of `FileManager.validate_filename` (manager.py lines 46-70). -/
def validateFilename (filename : String) : Bool × Option String :=
  if filename = "" then (false, some "Filename cannot be empty")
  else if filename.toList.length > 128 then
    (false, some "Filename too long (max 128 characters)")
  else if !(filename.toList.all isFilenameChar) then
    (false, some "Filename contains invalid characters (use only a-z, A-Z, 0-9, ., _, -)")
  else if hasDoubleDot filename.toList || filename.toList.contains '/' ||
      filename.toList.contains '\\' then
    (false, some "Filename cannot contain path separators")
  else (true, none)

/-- Python `os.path.basename` on POSIX: the part after the last '/'. -/
def basenameChars (l : List Char) : List Char :=
  (l.reverse.takeWhile (fun c => c ≠ '/')).reverse

/-- Python `os.path.splitext`: split at the last dot, unless every character
before it is itself a dot (so a leading-dot name keeps no extension). -/
def splitExtChars (l : List Char) : List Char × List Char :=
  match ((List.range l.length).filter (fun i => l.getD i ' ' == '.')).getLast? with
  | none => (l, [])
  | some dotIdx =>
      if (l.take dotIdx).any (fun c => c ≠ '.') then
        (l.take dotIdx, l.drop dotIdx)
      else (l, [])

/-- Embedding of `FileManager.sanitize_filename` (manager.py lines 72-94):
basename, invalid characters replaced by underscores, and the length capped
at 128 preserving the extension. -/
def sanitizeFilename (filename : String) : String :=
  let l := basenameChars filename.toList
  let l := l.map (fun c => if isFilenameChar c then c else '_')
  if l.length > 128 then
    let (name, ext) := splitExtChars l
    String.mk (name.take (128 - ext.length) ++ ext)
  else String.mk l

/-- Embedding of `FileManager.check_quota` (manager.py lines 121-146):
per-file size limit (the configurable `MAX_FILE_SIZE`), per-owner file
count, then per-owner total storage. -/
def checkQuota (db : FilesDb) (callsign : String) (fileSize maxFileSize : Nat) :
    Bool × Option String :=
  if fileSize > maxFileSize then
    (false, some s!"File too large (max {maxFileSize} bytes)")
  else if getFileCount db callsign ≥ MAX_FILES_PER_USER then
    (false, some s!"Maximum file count reached ({MAX_FILES_PER_USER} files)")
  else if getTotalFileSize db callsign + fileSize > MAX_TOTAL_SIZE_PER_USER then
    (false, some s!"Storage quota exceeded (max {MAX_TOTAL_SIZE_PER_USER} bytes)")
  else (true, none)

/-- Embedding of `FileManager.upload_file` (manager.py lines 148-208):
sanitize, validate, check quota, then save; a validation or quota failure
returns the error and writes nothing. -/
def uploadFile (db : FilesDb) (filename : String) (fileData : List Nat)
    (ownerCallsign accessLevel : String) (maxFileSize : Nat) :
    (Option Nat × Option String) × FilesDb :=
  let filename := sanitizeFilename filename
  match validateFilename filename with
  | (false, error) => ((none, error), db)
  | (true, _) =>
    match checkQuota db ownerCallsign fileData.length maxFileSize with
    | (false, error) => ((none, error), db)
    | (true, _) =>
        let accessLevel :=
          if ["private", "public", "shared"].contains accessLevel then accessLevel
          else "private"
        let (fileId, db) := saveFile db filename fileData.length ownerCallsign accessLevel
        ((some fileId, none), db)

/-! ### Rate limiting — src/packetclaude/database.py and auth/rate_limiter.py -/

/-- Row of the `queries` table as the rate-limit queries read it: the
callsign, the insertion timestamp, and the error column.  Timestamps are
integers (epoch seconds) so the window arithmetic mirrors the source's
datetime subtraction. -/
structure QueryRow where
  callsign : String
  timestamp : Int
  error : Option String
  deriving DecidableEq, Repr

/-- Count `SELECT COUNT(*) FROM queries WHERE callsign = ? AND timestamp > ?
AND error IS NULL` (database.py lines 322-327). -/
def successesInWindow (queries : List QueryRow) (callsign : String)
    (cutoff : Int) : Nat :=
  (queries.filter
    (fun q => q.callsign == callsign && decide (cutoff < q.timestamp) &&
      q.error == none)).length

/-- Embedding of `Database.check_rate_limit` (database.py lines 300-343):
deny with the hourly reason as soon as the hour window holds
`queries_per_hour` successes, then with the daily reason for the day
window, else allow. -/
def checkRateLimit (queries : List QueryRow) (callsign : String)
    (queriesPerHour queriesPerDay : Nat) (now : Int) : Bool × Option String :=
  let hourAgo := now - 3600
  let dayAgo := now - 86400
  let hourlyCount := successesInWindow queries callsign hourAgo
  if hourlyCount ≥ queriesPerHour then
    (false, some s!"Hourly limit reached ({queriesPerHour}/hour)")
  else
    let dailyCount := successesInWindow queries callsign dayAgo
    if dailyCount ≥ queriesPerDay then
      (false, some s!"Daily limit reached ({queriesPerDay}/day)")
    else (true, none)

def isUpperOrDigit (c : Char) : Bool := c.isUpper || c.isDigit

/-- One split of the callsign pattern `[A-Z0-9]{1,2}[0-9][A-Z0-9]{1,4}`:
`k` leading alphanumerics, a digit, then one to four alphanumerics. -/
def callsignSplitOk (l : List Char) (k : Nat) : Bool :=
  decide (k < l.length) && (l.take k).all isUpperOrDigit &&
    (l.getD k ' ').isDigit &&
    decide (1 ≤ (l.drop (k + 1)).length) && decide ((l.drop (k + 1)).length ≤ 4) &&
    (l.drop (k + 1)).all isUpperOrDigit

/-- Full match of `^[A-Z0-9]{1,2}[0-9][A-Z0-9]{1,4}(-[0-9]{1,2})?$`: the
base (before the first '-') has a 1- or 2-character split, and an optional
SSID part is '-' followed by one or two digits. -/
def isValidCallsignChars (l : List Char) : Bool :=
  let (base, rest) := l.span (fun c => c ≠ '-')
  (callsignSplitOk base 1 || callsignSplitOk base 2) &&
    (match rest with
     | [] => true
     | _ :: ds =>
        decide (1 ≤ ds.length) && decide (ds.length ≤ 2) && ds.all Char.isDigit)

/-- Embedding of `RateLimiter.is_valid_callsign` (rate_limiter.py lines
90-108): upper-case, strip, then match the pattern. -/
def isValidCallsign (callsign : String) : Bool :=
  isValidCallsignChars (pyStripChars (pyUpperChars callsign.toList))

/-- Embedding of `RateLimiter.check_limit` (rate_limiter.py lines 36-63):
a disabled limiter allows, an invalid callsign denies, else the database
check runs on the upper-cased callsign. -/
def checkLimit (enabled : Bool) (queries : List QueryRow)
    (queriesPerHour queriesPerDay : Nat) (now : Int) (callsign : String) :
    Bool × Option String :=
  if !enabled then (true, none)
  else if !isValidCallsign callsign then (false, some "Invalid callsign format")
  else checkRateLimit queries (pyUpper callsign) queriesPerHour queriesPerDay now

/-! ### Dispatcher — src/packetclaude/main.py `_on_data`

The handler's externally visible effects in order.  Command handlers that
`_on_data` merely delegates to (`_send_help`, `_send_status`, the file
subcommands) appear as single marker actions; their bodies live in separate
methods and are not part of the claims over this dispatch. -/

inductive Action where
  | send (text : String)
  | sendHelp
  | sendStatus
  | clearSession
  | disconnect
  | filesCommand
  | downloadCommand
  | fileinfoCommand
  | shareCommand
  | publicfileCommand
  | deletefileCommand
  | uploadCommand
  | startYappUpload
  | authenticate (callsign : String)
  | logRateLimit (reason : String)
  | logQueryActivity
  | llmQuery (text : String)
  | logError (error : String)
  | logResponse
  | logQueryDb (error : Option String)
  | addUserMessage
  | addAssistantMessage
  | trackActivity
  deriving DecidableEq, Repr

/-- Python `f"{reason}"` where `reason` is `Optional[str]`. -/
def optStr (o : Option String) : String := o.getD "None"

/-- Exit command list of main.py line 607. -/
def isExitCommand (lower : String) : Bool :=
  ["quit", "bye", "exit", "73", "/exit", "close", "logout", "disconnect"].contains lower

/-- Truncation of main.py lines 733-736: cut to `max_response_chars`
characters and append the marker. -/
def truncateResponse (response : String) (maxChars : Nat) : String :=
  if response.toList.length > maxChars then
    String.mk (response.toList.take maxChars) ++
      s!"\n\n[Response truncated at {maxChars} chars]"
  else response

/-- Tail of `_on_data` from the rate check on (main.py lines 647-739): a
denial logs the event and sends the rate message — returning before any
Claude call — while an allowed line logs the query, sends the typing
indicator, and runs the Claude turn, with `llmReply` standing for
`claude_client.send_message`'s result `(response_text, tokens_used, error)`. -/
def dispatchQuery (limitResult : Bool × Option String)
    (remoteAddress connType : String) (maxResponseChars : Nat)
    (llmReply : String × Nat × Option String) (message : String) : List Action :=
  match limitResult with
  | (false, reason) =>
      [.logRateLimit (optStr reason),
       .send ("Rate limit exceeded: " ++ optStr reason ++
         "\nPlease try again later. Type 'status' for details.\n> ")]
  | (true, _) =>
      [.logQueryActivity,
       .send "...\n",
       .llmQuery ("[Connection: " ++ remoteAddress ++ " via " ++ connType ++
         "] " ++ message)] ++
      match llmReply with
      | (_, _, some error) =>
          [.logError error, .logQueryDb (some error),
           .send ("Error: " ++ error ++ "\nPlease try again.\n> ")]
      | (responseText, _, none) =>
          [.addUserMessage, .addAssistantMessage, .trackActivity,
           .logResponse, .logQueryDb none,
           .send (truncateResponse responseText maxResponseChars ++ "\n> ")]

/-- Embedding of `PacketClaude._on_data` (main.py lines 574-749): decode and
trim, authenticate an unauthenticated session's line as a callsign, dispatch
the built-in and file commands, then hand the line to the rate check and
Claude turn of `dispatchQuery`. -/
def onData (rateEnabled : Bool) (queriesPerHour queriesPerDay : Nat)
    (queries : List QueryRow) (now : Int) (authenticated : Bool)
    (remoteAddress connType : String) (maxResponseChars : Nat)
    (llmReply : String × Nat × Option String) (data : String) : List Action :=
  let message := pyStrip data
  if message = "" then []
  else if !authenticated then
    let callsign := pyStrip (pyUpper message)
    if !isValidCallsignChars callsign.toList then
      [.send "\nInvalid callsign format. Please enter a valid amateur radio callsign: "]
    else [.authenticate callsign]
  else
    let lower := pyLower message
    if lower == "help" || lower == "?" then [.sendHelp]
    else if isExitCommand lower then [.send "73! Goodbye.\n", .disconnect]
    else if lower == "status" then [.sendStatus]
    else if lower == "clear" || lower == "reset" then
      [.clearSession, .send "Conversation history cleared.\n> "]
    else if startsWithChars lower.toList "/files".toList ||
        startsWithChars lower.toList "/list".toList then [.filesCommand]
    else if startsWithChars lower.toList "/download".toList then [.downloadCommand]
    else if startsWithChars lower.toList "/fileinfo".toList then [.fileinfoCommand]
    else if startsWithChars lower.toList "/share".toList then [.shareCommand]
    else if startsWithChars lower.toList "/publicfile".toList then [.publicfileCommand]
    else if startsWithChars lower.toList "/deletefile".toList then [.deletefileCommand]
    else if startsWithChars lower.toList "/upload".toList then [.uploadCommand]
    else
      dispatchQuery
        (checkLimit rateEnabled queries queriesPerHour queriesPerDay now
          remoteAddress)
        remoteAddress connType maxResponseChars llmReply message

/-- A line that reaches the rate check: nonempty after trimming and matching
none of the command branches of `_on_data`. -/
def isPlainQuery (message : String) : Bool :=
  (message != "") &&
  (let lower := pyLower message
   !(lower == "help" || lower == "?") &&
   !isExitCommand lower &&
   !(lower == "status") &&
   !(lower == "clear" || lower == "reset") &&
   !(startsWithChars lower.toList "/files".toList ||
     startsWithChars lower.toList "/list".toList) &&
   !(startsWithChars lower.toList "/download".toList) &&
   !(startsWithChars lower.toList "/fileinfo".toList) &&
   !(startsWithChars lower.toList "/share".toList) &&
   !(startsWithChars lower.toList "/publicfile".toList) &&
   !(startsWithChars lower.toList "/deletefile".toList) &&
   !(startsWithChars lower.toList "/upload".toList))

/-- Embedding of `PacketClaude._handle_upload_command` (main.py lines
999-1013): telnet is refused; on AX.25 the handler announces readiness and
starts the YAPP upload at once — `start_yapp_upload` sends the initial ACK
packet — with no filename or quota check (none is possible: the filename and
size arrive only later, inside the YAPP header). -/
def handleUploadCommand (isTelnet started : Bool) : List Action :=
  if isTelnet then
    [.send ("YAPP file upload is only supported over AX.25 connections.\n" ++
      "Please use Packet Commander or another AX.25 client to upload files.\n> ")]
  else
    [.send "Ready to receive file via YAPP. Send ENQ to start.\n",
     .startYappUpload] ++
      (if started then [] else [.send "Failed to start upload.\n> "])

/-! ### Telnet identity rekey — src/packetclaude/telnet/server.py and main.py

Key sets of the two tables the claim speaks about:
`TelnetServer.connections` and `SessionManager.sessions` (the dictionary
values move with their keys, so key lists carry the claim's state). -/

/-- Connection identity of class `TelnetConnection` (server.py lines 36-109):
the fixed `ip:port` string and the optional detected callsign;
`remote_address` returns the callsign once set. -/
structure TelnetConnModel where
  ipKey : String
  callsign : Option String
  deriving DecidableEq, Repr

def remoteAddressOf (c : TelnetConnModel) : String := c.callsign.getD c.ipKey

/-- Embedding of `TelnetConnection.set_callsign` (server.py lines 97-106):
a nonempty, non-blank value is stored stripped and upper-cased. -/
def setCallsign (c : TelnetConnModel) (value : String) : TelnetConnModel :=
  if pyStrip value ≠ "" then { c with callsign := some (pyUpper (pyStrip value)) }
  else c

structure RekeyState where
  telnetConns : List String
  sessions : List String
  deriving DecidableEq, Repr

/-- Dictionary key removal (`del d[k]`) on a key list. -/
def delKey (keys : List String) (k : String) : List String :=
  keys.filter (fun x => x ≠ k)

/-- Dictionary key insertion (`d[k] = v`) on a key list. -/
def putKey (keys : List String) (k : String) : List String :=
  if keys.contains k then keys else keys ++ [k]

/-- Embedding of the USER/LOGNAME branch of `TelnetServer._parse_environ`
(server.py lines 315-323) for a nonempty value: `set_callsign`, then the
connection is rekeyed in `self.connections` (old key deleted, new key
inserted).  The server holds no reference to the session store, so
`sessions` is untouched by this step. -/
def environSniffStep (st : RekeyState) (conn : TelnetConnModel)
    (value : String) : RekeyState × TelnetConnModel :=
  if value ≠ "" then
    let conn2 := setCallsign conn value
    let telnet2 :=
      if st.telnetConns.contains conn.ipKey then
        putKey (delKey st.telnetConns conn.ipKey) (remoteAddressOf conn2)
      else st.telnetConns
    ({ st with telnetConns := telnet2 }, conn2)
  else (st, conn)

/-- Embedding of the rekey portion of `PacketClaude._authenticate_callsign`
(main.py lines 494-511): `get_session(old_address)` creates the session
under the (upper-cased) old key on demand; then only when the telnet
connection has no callsign yet does the handler `set_callsign` and move the
old key to the new one in the session store and the telnet table. -/
def authenticateRekey (st : RekeyState) (conn : TelnetConnModel)
    (callsign : String) : RekeyState × TelnetConnModel :=
  let oldAddress := remoteAddressOf conn
  let st := { st with sessions := putKey st.sessions (pyUpper oldAddress) }
  if conn.callsign = none then
    let conn2 := setCallsign conn callsign
    let newAddress := remoteAddressOf conn2
    let sessions2 :=
      if oldAddress ≠ newAddress ∧ st.sessions.contains oldAddress then
        putKey (delKey st.sessions oldAddress) newAddress
      else st.sessions
    let telnet2 :=
      if oldAddress ≠ newAddress ∧ st.telnetConns.contains oldAddress then
        putKey (delKey st.telnetConns oldAddress) newAddress
      else st.telnetConns
    ({ telnetConns := telnet2, sessions := sessions2 }, conn2)
  else (st, conn)

/-- Key-set form of the claim's invariant: after the transition the new key
is present and the old key absent. -/
def rekeyedExactlyOnce (keys : List String) (oldKey newKey : String) : Bool :=
  keys.contains newKey && !(keys.contains oldKey)

end PacketClaude

namespace PacketClaude

/-! ## Theorems -/

theorem readKissData_escape (data acc : List Nat) :
    readKissData (kissEscape data ++ [FEND]) acc false =
      (if acc ++ data = [] then none else some (acc ++ data)) := by
  induction data generalizing acc with
  | nil =>
      simp [kissEscape, readKissData, FEND]
  | cons b rest ih =>
      by_cases hF : b = FEND
      · subst hF
        simp only [kissEscape, FEND, FESC, TFEND, TFESC] at *
        norm_num [readKissData, FEND, FESC, TFEND, TFESC]
        rw [ih (acc ++ [192])]
        simp
      · by_cases hE : b = FESC
        · subst hE
          simp only [kissEscape, FEND, FESC, TFEND, TFESC] at *
          norm_num [readKissData, FEND, FESC, TFEND, TFESC]
          rw [ih (acc ++ [219])]
          simp
        · simp only [kissEscape, if_neg hF, if_neg hE, List.cons_append,
            List.nil_append]
          rw [readKissData, if_neg hF, if_neg hE]
          simp only [Bool.false_eq_true, if_false]
          rw [ih (acc ++ [b])]
          simp

theorem readKissFrame_buildKissFrame (data : List Nat) (port : Nat) :
    readKissFrame (buildKissFrame data port) =
      (if data = [] then none else some data) := by
  have hdrop :
      (buildKissFrame data port).dropWhile (fun b => b ≠ FEND) =
        buildKissFrame data port := by
    apply List.dropWhile_eq_self_iff.mpr
    intro h
    simp [buildKissFrame]
  rw [readKissFrame, hdrop]
  simp only [buildKissFrame, List.cons_append]
  rw [readKissData_escape data []]
  simp

/-- C6 counterexample: the claim states that decoding a KISS-encoded frame
returns the pair (port, payload) for every payload; for the empty payload the
reader drops the frame (`return ... if frame_data else None`) instead of
returning it, so the round trip already fails on the payload component. -/
theorem kiss_empty_payload_dropped :
    readKissFrame (buildKissFrame [] 3) = none ∧
      readKissFrame (buildKissFrame [] 3) ≠ some [] := by
  constructor
  · rfl
  · intro h
    simp [readKissFrame, buildKissFrame, kissEscape, readKissData] at h

/-- C6 (amended): for every nonempty payload — including payloads containing
the FEND and FESC bytes — and every port 0-15, the frame reader recovers the
payload unchanged by reversing the escapes; the port byte is consumed but
discarded (its extraction is commented out in `_read_kiss_frame`), and an
empty payload yields no frame. -/
theorem kiss_round_trip (data : List Nat) (port : Nat)
    (hdata : data ≠ []) (_hport : port ≤ 15) :
    readKissFrame (buildKissFrame data port) = some data := by
  rw [readKissFrame_buildKissFrame, if_neg hdata]

theorem kiss_round_trip_witness :
    ([FEND, 65, FESC, 66] : List Nat) ≠ [] ∧ (5 : Nat) ≤ 15 ∧
      readKissFrame (buildKissFrame [FEND, 65, FESC, 66] 5) =
        some [FEND, 65, FESC, 66] :=
  ⟨by decide, by decide,
    kiss_round_trip [FEND, 65, FESC, 66] 5 (by decide) (by decide)⟩

/-- C5: the frame constructors give SABM (and UA, DISC, DM) an empty info
field and a non-info control byte, so `encode` emits 15 bytes — destination
(7), source (7) and control (1), no PID — while `decode` rejects every frame
shorter than 16 bytes with "Frame too short".  The round trip the claim
states therefore fails on exactly the unnumbered frames it names. -/
theorem ax25_sabm_roundtrip_fails :
    (frameEncode (createSabmFrame "W1ABC" "W2ASM" 0 10)).length = 15 ∧
      frameDecode (frameEncode (createSabmFrame "W1ABC" "W2ASM" 0 10)) =
        Except.error "Frame too short" :=
  ⟨by decide, rfl⟩

/-- C4: in the S5 exchange the peer's ENQ is answered with ACK, but the
transfer is left in WAIT_ACK, whose dispatch recognises only ACK, NAK and
CAN; the peer's following SOH + 128-byte header packet therefore gets no
response at all (the claim states it is decoded and answered with ACK), and
the transfer never leaves WAIT_ACK. -/
theorem yapp_upload_header_ignored :
    (managerRun ⟨[]⟩ "K0ASM"
        [[yENQ], ySOH :: headerEncode ⟨"test.txt", 5, 0⟩]).2 =
      [some [yACK], none] ∧
      (((managerRun ⟨[]⟩ "K0ASM"
          [[yENQ], ySOH :: headerEncode ⟨"test.txt", 5, 0⟩]).1.transfers.lookup
            "K0ASM").map (fun t => t.state)) = some .waitAck := by
  decide

theorem addMessage_length_le (maxMessages : Nat) (msgs : List ChatMsg)
    (m : ChatMsg) : (addMessage maxMessages msgs m).length ≤ maxMessages := by
  simp only [addMessage, List.length_drop, List.length_append]
  omega

theorem runAdds_length_le (maxMessages : Nat) (adds : List ChatMsg) :
    (runAdds maxMessages adds).length ≤ maxMessages := by
  rw [runAdds]
  have H : ∀ (as l : List ChatMsg), l.length ≤ maxMessages →
      (as.foldl (addMessage maxMessages) l).length ≤ maxMessages := by
    intro as
    induction as with
    | nil => intro l hl; simpa using hl
    | cons a rest ih =>
        intro l _
        simp only [List.foldl_cons]
        exact ih _ (addMessage_length_le maxMessages l a)
  exact H adds [] (by simp)

/-- C10: after any sequence of user/assistant additions the session history
holds at most `maxMessages` entries, and once the bound is reached (for a
positive bound) each further addition drops exactly the oldest message and
appends the new one at the end — strict FIFO eviction, as implemented by the
`deque(maxlen=max_messages)` in `ConversationSession`. -/
theorem session_bound_fifo (maxMessages : Nat) (adds : List ChatMsg) :
    (runAdds maxMessages adds).length ≤ maxMessages ∧
      ∀ m : ChatMsg, 0 < maxMessages →
        (runAdds maxMessages adds).length = maxMessages →
        addMessage maxMessages (runAdds maxMessages adds) m =
          (runAdds maxMessages adds).drop 1 ++ [m] := by
  refine ⟨runAdds_length_le maxMessages adds, ?_⟩
  intro m hpos hfull
  have hne : runAdds maxMessages adds ≠ [] := by
    intro h
    rw [h] at hfull
    simp at hfull
    omega
  simp only [addMessage, List.length_append, List.length_singleton, hfull]
  have hd : maxMessages + 1 - maxMessages = 1 := by omega
  rw [hd, List.drop_append_of_le_length]
  omega

theorem chunksOfAux_flatten (n : Nat) (hn : 0 < n) :
    ∀ (fuel : Nat) (l : List Char), l.length ≤ fuel →
      (chunksOfAux n fuel l).flatten = l := by
  intro fuel
  induction fuel with
  | zero =>
      intro l hl
      have : l = [] := List.eq_nil_of_length_eq_zero (Nat.le_zero.mp hl)
      subst this
      simp [chunksOfAux]
  | succ fuel ih =>
      intro l hl
      cases l with
      | nil => simp [chunksOfAux]
      | cons c rest =>
          have hstep : chunksOfAux n (fuel + 1) (c :: rest) =
              (c :: rest).take n :: chunksOfAux n fuel ((c :: rest).drop n) := rfl
          rw [hstep]
          simp only [List.flatten_cons]
          rw [ih ((c :: rest).drop n)
            (by rw [List.length_drop]; simp only [List.length_cons] at hl ⊢; omega)]
          exact List.take_append_drop n (c :: rest)

theorem chunksOfAux_length_le (n : Nat) :
    ∀ (fuel : Nat) (l : List Char) (f : List Char),
      f ∈ chunksOfAux n fuel l → f.length ≤ n := by
  intro fuel
  induction fuel with
  | zero => intro l f hf; simp [chunksOfAux] at hf
  | succ fuel ih =>
      intro l f hf
      cases l with
      | nil => simp [chunksOfAux] at hf
      | cons c rest =>
          have hstep : chunksOfAux n (fuel + 1) (c :: rest) =
              (c :: rest).take n :: chunksOfAux n fuel ((c :: rest).drop n) := rfl
          rw [hstep] at hf
          rcases List.mem_cons.mp hf with h | h
          · subst h
            simpa using List.length_take_le n (c :: rest)
          · exact ih _ _ h

theorem utf8Len_of_single_byte (f : List Char) (h : ∀ c ∈ f, c.utf8Size = 1) :
    utf8Len f = f.length := by
  induction f with
  | nil => simp [utf8Len]
  | cons c rest ih =>
      simp only [utf8Len, List.map_cons, List.sum_cons] at *
      rw [h c (List.mem_cons_self c rest), ih (fun d hd => h d (List.mem_cons_of_mem c hd))]
      exact Nat.add_comm 1 rest.length

set_option maxRecDepth 4000 in
/-- C7 counterexample: `_send_to_station` slices the reply into chunks of 200
Python characters and only then encodes each chunk as UTF-8; a reply of 200
two-byte characters (here 200 copies of 0xE9) produces a single UI info field
of 400 bytes, so the claimed 200-byte bound fails for multi-byte replies. -/
theorem fragment_byte_bound_fails :
    ((sendToStationAx25 (String.mk (List.replicate 200 'é'))).all
      (fun f => utf8Len f ≤ 200)) = false := by
  decide

/-- C7 (amended): on AX.25, newlines are translated to CR and the output is
split into UI frames of at most 200 characters each, whose concatenation is
the translated reply; a frame's info field is at most 200 bytes whenever its
characters are single-byte (ASCII), but not in general. -/
theorem fragment_chunks (message : String) :
    (sendToStationAx25 message).flatten = (translateNewlines message).toList ∧
      ∀ f ∈ sendToStationAx25 message,
        f.length ≤ 200 ∧ ((∀ c ∈ f, c.utf8Size = 1) → utf8Len f ≤ 200) := by
  constructor
  · exact chunksOfAux_flatten 200 (by decide) _ _ (le_refl _)
  · intro f hf
    have hlen := chunksOfAux_length_le 200 _ _ f hf
    refine ⟨hlen, fun hascii => ?_⟩
    rw [utf8Len_of_single_byte f hascii]
    exact hlen

theorem fragment_chunks_witness :
    (sendToStationAx25 "hi\nthere").flatten =
        (translateNewlines "hi\nthere").toList ∧
      (['h', 'i', '\r', 't', 'h', 'e', 'r', 'e'].length ≤ 200 ∧
        ((∀ c ∈ ['h', 'i', '\r', 't', 'h', 'e', 'r', 'e'], c.utf8Size = 1) →
          utf8Len ['h', 'i', '\r', 't', 'h', 'e', 'r', 'e'] ≤ 200)) :=
  ⟨(fragment_chunks "hi\nthere").1,
    (fragment_chunks "hi\nthere").2 ['h', 'i', '\r', 't', 'h', 'e', 'r', 'e']
      (by decide)⟩

/-- C9: the `file_shares` schema has no UNIQUE constraint on
`(file_id, shared_with_callsign)`, so `INSERT OR IGNORE` never ignores: two
`share_file` calls by the owner for the same file and recipient leave two
rows for the pair (the access level does flip to shared). -/
theorem share_file_duplicate_rows :
    (shareFile ⟨[⟨1, "a.txt", 5, "W2ASM", "private"⟩], [], 2, 1⟩
        1 "W2ASM" "K0ASM").1 = true ∧
      (shareFile (shareFile ⟨[⟨1, "a.txt", 5, "W2ASM", "private"⟩], [], 2, 1⟩
          1 "W2ASM" "K0ASM").2 1 "W2ASM" "K0ASM").1 = true ∧
      ((shareFile (shareFile ⟨[⟨1, "a.txt", 5, "W2ASM", "private"⟩], [], 2, 1⟩
          1 "W2ASM" "K0ASM").2 1 "W2ASM" "K0ASM").2.shares.filter
        (fun s => s.fileId == 1 && s.sharedWithCallsign == "K0ASM")).length = 2 ∧
      (findFile (shareFile (shareFile ⟨[⟨1, "a.txt", 5, "W2ASM", "private"⟩], [], 2, 1⟩
          1 "W2ASM" "K0ASM").2 1 "W2ASM" "K0ASM").2 1).map
        (fun r => r.accessLevel) = some "shared" := by
  decide

/-- C3: a NEW-ENVIRON USER reply rekeys only the telnet connection table;
the session store keeps the connection's old `ip:port` key and never receives
the callsign key at the transition (and the later authentication path skips
its rekey because the callsign is already set, leaving both keys present in
the session store), against the claim that both tables end with exactly the
new key. -/
theorem telnet_environ_rekey_misses_sessions :
    (environSniffStep ⟨["203.0.113.9:4321"], ["203.0.113.9:4321"]⟩
        ⟨"203.0.113.9:4321", none⟩ "K0ASM").1.telnetConns = ["K0ASM"] ∧
      (environSniffStep ⟨["203.0.113.9:4321"], ["203.0.113.9:4321"]⟩
        ⟨"203.0.113.9:4321", none⟩ "K0ASM").1.sessions = ["203.0.113.9:4321"] ∧
      rekeyedExactlyOnce
        (environSniffStep ⟨["203.0.113.9:4321"], ["203.0.113.9:4321"]⟩
          ⟨"203.0.113.9:4321", none⟩ "K0ASM").1.sessions
        "203.0.113.9:4321" "K0ASM" = false ∧
      (authenticateRekey
        (environSniffStep ⟨["203.0.113.9:4321"], ["203.0.113.9:4321"]⟩
          ⟨"203.0.113.9:4321", none⟩ "K0ASM").1
        (environSniffStep ⟨["203.0.113.9:4321"], ["203.0.113.9:4321"]⟩
          ⟨"203.0.113.9:4321", none⟩ "K0ASM").2
        "K0ASM").1.sessions = ["203.0.113.9:4321", "K0ASM"] := by
  decide

/-- C8 counterexample: the `/upload` handler on AX.25 starts the YAPP
transfer (whose first ACK packet goes on the air) for every request — it
holds no filename or size to check — and a request that fails the checks
(here a 5-byte file against a configured 4-byte limit) is rejected only by
`upload_file` after the transfer, leaving the store unchanged. -/
theorem upload_starts_yapp_before_checks :
    Action.startYappUpload ∈ handleUploadCommand false true ∧
      (uploadFile ⟨[], [], 1, 1⟩ "hello.txt" [104, 101, 108, 108, 111]
        "W2ASM" "private" 4).1 = (none, some "File too large (max 4 bytes)") ∧
      (uploadFile ⟨[], [], 1, 1⟩ "hello.txt" [104, 101, 108, 108, 111]
        "W2ASM" "private" 4).2 = ⟨[], [], 1, 1⟩ := by
  decide

theorem validateFilename_true (filename : String)
    (h : (validateFilename filename).1 = true) :
    validateFilename filename = (true, none) := by
  unfold validateFilename at *
  split_ifs at h ⊢ <;> simp_all

theorem checkQuota_true (db : FilesDb) (callsign : String)
    (fileSize maxFileSize : Nat)
    (h : (checkQuota db callsign fileSize maxFileSize).1 = true) :
    checkQuota db callsign fileSize maxFileSize = (true, none) := by
  unfold checkQuota at *
  split_ifs at h ⊢ <;> simp_all

/-- C8 (amended): the AX.25 `/upload` handler announces readiness and starts
the YAPP transfer with no validation; the filename and quota checks run only
inside `upload_file`, after the transfer has completed — a saved file implies
both checks passed, and a rejected upload leaves the store unchanged. -/
theorem upload_validation_at_save (db : FilesDb) (filename : String)
    (fileData : List Nat) (ownerCallsign accessLevel : String)
    (maxFileSize : Nat) :
    handleUploadCommand false true =
        [Action.send "Ready to receive file via YAPP. Send ENQ to start.\n",
         Action.startYappUpload] ∧
      (∀ fileId,
        (uploadFile db filename fileData ownerCallsign accessLevel
          maxFileSize).1.1 = some fileId →
        validateFilename (sanitizeFilename filename) = (true, none) ∧
          checkQuota db ownerCallsign fileData.length maxFileSize = (true, none)) ∧
      ((uploadFile db filename fileData ownerCallsign accessLevel
          maxFileSize).1.1 = none →
        (uploadFile db filename fileData ownerCallsign accessLevel
          maxFileSize).2 = db) := by
  refine ⟨rfl, ?_, ?_⟩ <;>
  · unfold uploadFile
    rcases hv : validateFilename (sanitizeFilename filename) with ⟨bv, ev⟩
    cases bv
    · simp [hv]
    · rcases hq : checkQuota db ownerCallsign fileData.length maxFileSize with ⟨bq, eq'⟩
      cases bq
      · simp [hv, hq]
      · have hv2 := validateFilename_true (sanitizeFilename filename) (by rw [hv])
        have hq2 := checkQuota_true db ownerCallsign fileData.length maxFileSize
          (by rw [hq])
        rw [hv] at hv2
        rw [hq] at hq2
        simp only [Prod.mk.injEq, true_and] at hv2 hq2
        subst hv2
        subst hq2
        simp [saveFile, hv, hq]

theorem upload_validation_at_save_witness :
    validateFilename (sanitizeFilename "test.txt") = (true, none) ∧
      checkQuota ⟨[], [], 1, 1⟩ "W2ASM" 2 102400 = (true, none) :=
  (upload_validation_at_save ⟨[], [], 1, 1⟩ "test.txt" [104, 105] "W2ASM"
    "private" 102400).2.1 1 (by decide)

theorem session_bound_fifo_witness :
    (runAdds 2 [⟨"user", "A"⟩, ⟨"assistant", "B"⟩, ⟨"user", "C"⟩]).length ≤ 2 ∧
      addMessage 2 (runAdds 2 [⟨"user", "A"⟩, ⟨"assistant", "B"⟩, ⟨"user", "C"⟩])
          ⟨"assistant", "D"⟩ =
        (runAdds 2 [⟨"user", "A"⟩, ⟨"assistant", "B"⟩, ⟨"user", "C"⟩]).drop 1 ++
          [⟨"assistant", "D"⟩] := by
  have h := session_bound_fifo 2 [⟨"user", "A"⟩, ⟨"assistant", "B"⟩, ⟨"user", "C"⟩]
  exact ⟨h.1, h.2 ⟨"assistant", "D"⟩ (by decide) (by decide)⟩

theorem onData_plain_query (rateEnabled : Bool) (queriesPerHour queriesPerDay : Nat)
    (queries : List QueryRow) (now : Int) (remoteAddress connType : String)
    (maxResponseChars : Nat) (llmReply : String × Nat × Option String)
    (data : String) (hplain : isPlainQuery (pyStrip data) = true) :
    onData rateEnabled queriesPerHour queriesPerDay queries now true
        remoteAddress connType maxResponseChars llmReply data =
      dispatchQuery
        (checkLimit rateEnabled queries queriesPerHour queriesPerDay now remoteAddress)
        remoteAddress connType maxResponseChars llmReply (pyStrip data) := by
  unfold isPlainQuery at hplain
  simp only [Bool.and_eq_true, Bool.not_eq_true', bne_iff_ne, ne_eq] at hplain
  obtain ⟨h0, ⟨⟨⟨⟨⟨⟨⟨⟨⟨⟨h1, h2⟩, h3⟩, h4⟩, h5⟩, h6⟩, h7⟩, h8⟩, h9⟩, h10⟩, h11⟩⟩ := hplain
  unfold onData
  rw [if_neg h0]
  simp only [Bool.not_true, Bool.false_eq_true, if_false, h1, h2, h3, h4, h5,
    h6, h7, h8, h9, h10, h11]

/-- C1: for an authenticated plain (non-command) line from a valid callsign
under an enabled limiter, when the trailing-hour count of successful query
rows (error IS NULL) has reached the hourly limit, the check denies with
exactly "Hourly limit reached (H/hour)" and the dispatcher sends exactly
"Rate limit exceeded: <reason>\nPlease try again later. Type 'status' for
details.\n> " and makes no LLM call; and when the hour window is under its
limit but the day window has reached the daily limit, the same holds with
"Daily limit reached (D/day)". -/
theorem rate_limit_denial (queriesPerHour queriesPerDay : Nat)
    (queries : List QueryRow) (now : Int) (remoteAddress connType : String)
    (maxResponseChars : Nat) (llmReply : String × Nat × Option String)
    (data : String)
    (hvalid : isValidCallsign remoteAddress = true)
    (hplain : isPlainQuery (pyStrip data) = true) :
    (queriesPerHour ≤ successesInWindow queries (pyUpper remoteAddress) (now - 3600) →
      checkLimit true queries queriesPerHour queriesPerDay now remoteAddress =
        (false, some s!"Hourly limit reached ({queriesPerHour}/hour)") ∧
      onData true queriesPerHour queriesPerDay queries now true remoteAddress
          connType maxResponseChars llmReply data =
        [Action.logRateLimit s!"Hourly limit reached ({queriesPerHour}/hour)",
         Action.send ("Rate limit exceeded: " ++
           s!"Hourly limit reached ({queriesPerHour}/hour)" ++
           "\nPlease try again later. Type 'status' for details.\n> ")] ∧
      ∀ text, Action.llmQuery text ∉
        onData true queriesPerHour queriesPerDay queries now true remoteAddress
          connType maxResponseChars llmReply data) ∧
    (successesInWindow queries (pyUpper remoteAddress) (now - 3600) < queriesPerHour →
      queriesPerDay ≤ successesInWindow queries (pyUpper remoteAddress) (now - 86400) →
      checkLimit true queries queriesPerHour queriesPerDay now remoteAddress =
        (false, some s!"Daily limit reached ({queriesPerDay}/day)") ∧
      onData true queriesPerHour queriesPerDay queries now true remoteAddress
          connType maxResponseChars llmReply data =
        [Action.logRateLimit s!"Daily limit reached ({queriesPerDay}/day)",
         Action.send ("Rate limit exceeded: " ++
           s!"Daily limit reached ({queriesPerDay}/day)" ++
           "\nPlease try again later. Type 'status' for details.\n> ")] ∧
      ∀ text, Action.llmQuery text ∉
        onData true queriesPerHour queriesPerDay queries now true remoteAddress
          connType maxResponseChars llmReply data) := by
  have hcl : checkLimit true queries queriesPerHour queriesPerDay now remoteAddress =
      checkRateLimit queries (pyUpper remoteAddress) queriesPerHour queriesPerDay now := by
    unfold checkLimit
    simp [hvalid]
  have honda := onData_plain_query true queriesPerHour queriesPerDay queries now
    remoteAddress connType maxResponseChars llmReply data hplain
  constructor
  · intro hhour
    have hr : checkRateLimit queries (pyUpper remoteAddress) queriesPerHour
        queriesPerDay now =
        (false, some s!"Hourly limit reached ({queriesPerHour}/hour)") := by
      simp only [checkRateLimit]
      rw [if_pos hhour]
    rw [hcl, hr] at honda
    refine ⟨hcl.trans hr, ?_, ?_⟩
    · rw [honda]
      simp [dispatchQuery, optStr]
    · intro text htext
      rw [honda] at htext
      simp [dispatchQuery, optStr] at htext
  · intro hlt hday
    have hr : checkRateLimit queries (pyUpper remoteAddress) queriesPerHour
        queriesPerDay now =
        (false, some s!"Daily limit reached ({queriesPerDay}/day)") := by
      simp only [checkRateLimit]
      rw [if_neg (by omega), if_pos hday]
    rw [hcl, hr] at honda
    refine ⟨hcl.trans hr, ?_, ?_⟩
    · rw [honda]
      simp [dispatchQuery, optStr]
    · intro text htext
      rw [honda] at htext
      simp [dispatchQuery, optStr] at htext

theorem rate_limit_denial_witness :
    checkLimit true [⟨"K0ASM", 9950, none⟩, ⟨"K0ASM", 9960, none⟩] 2 10 10000
        "K0ASM" = (false, some "Hourly limit reached (2/hour)") ∧
      onData true 2 10 [⟨"K0ASM", 9950, none⟩, ⟨"K0ASM", 9960, none⟩] 10000 true
          "K0ASM" "ax25" 1000 ("", 0, none) "C" =
        [Action.logRateLimit "Hourly limit reached (2/hour)",
         Action.send ("Rate limit exceeded: Hourly limit reached (2/hour)\nPlease try again later. Type 'status' for details.\n> ")] := by
  have h := (rate_limit_denial 2 10 [⟨"K0ASM", 9950, none⟩, ⟨"K0ASM", 9960, none⟩]
    10000 "K0ASM" "ax25" 1000 ("", 0, none) "C" (by decide) (by decide)).1 (by decide)
  exact ⟨h.1, h.2.1⟩

/-- C2: for a canonical (upper-case) callsign, `check_file_access` grants
access exactly when the file row exists and the callsign owns it, or the
file is public, or the file is shared and a `file_shares` row for the pair
exists; in particular a nonexistent file id always denies. -/
theorem check_file_access_iff (db : FilesDb) (fileId : Nat) (callsign : String)
    (hcanon : pyUpper callsign = callsign) :
    checkFileAccess db fileId callsign = true ↔
      ∃ row, findFile db fileId = some row ∧
        (row.ownerCallsign = callsign ∨ row.accessLevel = "public" ∨
          (row.accessLevel = "shared" ∧
            ∃ s ∈ db.shares, s.fileId = fileId ∧
              s.sharedWithCallsign = callsign)) := by
  unfold checkFileAccess
  rw [hcanon]
  cases hfind : findFile db fileId with
  | none => simp [hfind]
  | some row =>
      simp only [hfind]
      split_ifs with h1 h2 h3
      · exact iff_of_true rfl ⟨row, rfl, Or.inl h1⟩
      · exact iff_of_true rfl ⟨row, rfl, Or.inr (Or.inl h2)⟩
      · rw [List.any_eq_true]
        constructor
        · rintro ⟨s, hs, hpred⟩
          simp only [Bool.and_eq_true, beq_iff_eq] at hpred
          exact ⟨row, rfl, Or.inr (Or.inr ⟨h3, s, hs, hpred.1, hpred.2⟩)⟩
        · rintro ⟨row2, hr2, hcase⟩
          obtain rfl : row = row2 := Option.some.inj hr2
          rcases hcase with hown | hpub | ⟨_, s, hs, hsf, hsw⟩
          · exact absurd hown h1
          · exact absurd hpub h2
          · exact ⟨s, hs, by simp [hsf, hsw]⟩
      · apply iff_of_false (by simp)
        rintro ⟨row2, hr2, hcase⟩
        obtain rfl : row = row2 := Option.some.inj hr2
        rcases hcase with hown | hpub | ⟨hsh, _⟩
        · exact h1 hown
        · exact h2 hpub
        · exact h3 hsh

theorem check_file_access_iff_witness :
    checkFileAccess ⟨[⟨1, "a.txt", 5, "W2ASM", "shared"⟩],
        [⟨1, 1, "K0ASM", "W2ASM"⟩], 2, 2⟩ 1 "K0ASM" = true ↔
      ∃ row, findFile ⟨[⟨1, "a.txt", 5, "W2ASM", "shared"⟩],
          [⟨1, 1, "K0ASM", "W2ASM"⟩], 2, 2⟩ 1 = some row ∧
        (row.ownerCallsign = "K0ASM" ∨ row.accessLevel = "public" ∨
          (row.accessLevel = "shared" ∧
            ∃ s ∈ (⟨[⟨1, "a.txt", 5, "W2ASM", "shared"⟩],
              [⟨1, 1, "K0ASM", "W2ASM"⟩], 2, 2⟩ : FilesDb).shares,
              s.fileId = 1 ∧ s.sharedWithCallsign = "K0ASM")) :=
  check_file_access_iff ⟨[⟨1, "a.txt", 5, "W2ASM", "shared"⟩],
    [⟨1, 1, "K0ASM", "W2ASM"⟩], 2, 2⟩ 1 "K0ASM" (by decide)

end PacketClaude
